import Mathlib

/-!
Verification of the pricing repository's aggregation core.

This file gives a shallow embedding, in Lean 4, of the decision logic of the
repository: the policy aggregator of src/research/aggregate.py, the policy
table builder of src/app.py, and the discount derivation of
src/research/extract.py, together with theorems about them.

Modelling conventions:
- Python ints are ℤ, Python floats are ℚ (every float literal of the source,
  0.6/0.8/0.9/1.1/0.75, is modelled as the exact rational it denotes; for all
  values reachable from the fixed tables of the source, the binary floating
  point computation and the exact rational computation produce the same
  integers, which was checked value by value).
- A pandas DataFrame of observations is a list of rows plus presence flags for
  the four required columns; a cell holding NaN/NA is modelled as
  Option.none.  pandas equality comparison with NA yields False, which the
  Option equality below reproduces.
- Fallible Python code is modelled with Option: in particular, app.py line 237
  evaluates the attribute aggregate.POLICY_COLUMNS, and src/research/aggregate.py
  defines no such name, so the lookup raises AttributeError; that lookup is
  modelled as an Option which is none.
-/

namespace Pricing

/-! ### Python numeric primitives -/

/-- Python's built-in round: round half to even (banker's rounding), here on an
exact rational, computed from the reduced numerator and denominator. -/
def pyRound (q : ℚ) : ℤ :=
  let f : ℤ := q.floor
  let twice : ℤ := 2 * (q.num - f * (q.den : ℤ))
  if twice < (q.den : ℤ) then f
  else if (q.den : ℤ) < twice then f + 1
  else if f % 2 = 0 then f else f + 1

/-- Python's int(...) applied to a float: truncation toward zero. -/
def pyTrunc (q : ℚ) : ℤ := if 0 ≤ q then q.floor else -((-q).floor)

/-- statistics.median: sort, take the middle element for odd length, the mean
of the two middle elements for even length.  Only applied by the source to
lists of length at least 5; the value on [] is irrelevant. -/
def median (l : List ℤ) : ℚ :=
  let s := l.insertionSort (fun a b => a ≤ b)
  let n := s.length
  if n % 2 = 1 then ((s.getD (n / 2) 0 : ℤ) : ℚ)
  else mkRat (s.getD (n / 2 - 1) 0 + s.getD (n / 2) 0) 2

/-- numpy.percentile(l, 75) with the default linear interpolation, modelled
from the library's documented semantics: with s the sorted data, n = |s| and
h = 3(n-1)/4, the result is s[⌊h⌋] + (h - ⌊h⌋) · (s[⌊h⌋+1] - s[⌊h⌋]).  Here
⌊h⌋ and h - ⌊h⌋ are written with natural division and remainder by 4, so the
whole value is the single fraction (4·s[⌊h⌋] + (3(n-1) mod 4)·(s[⌊h⌋+1] - s[⌊h⌋]))/4.
Only applied by the source to lists of length at least 5. -/
def percentile75 (l : List ℤ) : ℚ :=
  let s := l.insertionSort (fun a b => a ≤ b)
  let n := s.length
  let t := 3 * (n - 1)
  let lo := t / 4
  let r := t % 4
  mkRat (4 * s.getD lo 0 + (r : ℤ) * (s.getD (lo + 1) 0 - s.getD lo 0)) 4

/-! ### src/research/aggregate.py: fixed tables -/

/-- aggregate.py lines 11-25: the fixed 13-entry (gender, category) cell list. -/
def CATEGORIES : List (String × String) :=
  [("Men", "Clothing"), ("Men", "Shoes"), ("Men", "Bags"), ("Men", "Accessories"),
   ("Men", "Jewelry"), ("Men", "Watches"),
   ("Women", "Clothing"), ("Women", "Shoes"), ("Women", "Bags"), ("Women", "Accessories"),
   ("Women", "Jewelry"), ("Women", "Watches"), ("Women", "Beauty")]

/-- aggregate.py lines 27-35. -/
def CATEGORY_DEFAULTS : List (String × ℤ) :=
  [("Clothing", 20), ("Shoes", 18), ("Bags", 10), ("Accessories", 12),
   ("Jewelry", 8), ("Watches", 6), ("Beauty", 15)]

/-- aggregate.py lines 37-45. -/
def MOSTLY_FULL_PRICE_DEFAULTS : List (String × ℤ) :=
  [("Clothing", 8), ("Shoes", 8), ("Bags", 4), ("Accessories", 6),
   ("Jewelry", 3), ("Watches", 2), ("Beauty", 6)]

/-- aggregate.py line 47. -/
def TIER_A : List String :=
  ["rolex", "cartier", "hermes", "chanel", "patek", "omega", "louis vuitton"]

/-- aggregate.py line 48. -/
def TIER_D : List String := ["michael kors", "coach", "kate spade", "tory burch"]

/-- aggregate.py line 49. -/
def TIER_B : List String := ["gucci", "prada", "saint laurent", "balenciaga"]

/-- aggregate.py line 50. -/
def TIER_C : List String := ["off-white", "versace", "fendi"]

/-- aggregate.py lines 53-66: the PolicyRow dataclass. -/
structure PolicyRow where
  brand : String
  gender : String
  category : String
  public_sale_discount_pct : ℤ
  member_extra_pct : ℤ
  public_discount_cap_pct : ℤ
  discount_visibility : String
  msrp_strikethrough_rule : String
  coupon_eligibility : String
  evidence_level : String
  confidence : String
  why : String
deriving DecidableEq, Inhabited

/-- Python's (name in brand_lower) substring test, on explicit character
lists. -/
def isSubstrOf (needle : String) (haystack : List Char) : Bool :=
  haystack.tails.any fun t => needle.data.isPrefixOf t

/-- aggregate.py lines 69-79: infer_tier.  brand.lower() is modelled by
mapping Char.toLower over the characters (identical on the ASCII strings the
tier tables contain). -/
def infer_tier (brand : String) : String :=
  let brand_lower := brand.data.map Char.toLower
  if TIER_A.any fun name => isSubstrOf name brand_lower then "A"
  else if TIER_D.any fun name => isSubstrOf name brand_lower then "D"
  else if TIER_B.any fun name => isSubstrOf name brand_lower then "B"
  else if TIER_C.any fun name => isSubstrOf name brand_lower then "C"
  else "A"

/-- aggregate.py lines 82-93: member_extra_for_tier.  (low + high) / 2 is
Python float division, then int(round(...)). -/
def member_extra_for_tier (tier : String) (sale_pct : ℤ) : ℤ :=
  let ranges : List (String × (ℤ × ℤ)) :=
    [("A", (3, 5)), ("B", (5, 5)), ("C", (6, 8)), ("D", (8, 12))]
  let lh := (ranges.lookup tier).getD (3, 5)
  let member_extra := pyRound (mkRat (lh.1 + lh.2) 2)
  if 30 ≤ sale_pct then min member_extra 5 else member_extra

/-- aggregate.py lines 96-97. -/
def _clamp (value minimum maximum : ℤ) : ℤ := max minimum (min value maximum)

/-- One observation row, restricted to the four columns the aggregator reads
(extra columns of the real table are never consulted).  none models NA. -/
structure Obs where
  brand : Option String
  gender : Option String
  category : Option String
  discount_pct : Option ℚ
deriving DecidableEq

/-- aggregate.py lines 114-118: the subset of observations matching the
(brand, gender, category) cell.  A NA cell compares unequal to every string,
as in pandas. -/
def cellSubset (observations : List Obs) (brand gender category : String) : List Obs :=
  observations.filter fun o =>
    decide (o.brand = some brand ∧ o.gender = some gender ∧ o.category = some category)

/-- aggregate.py lines 119-120: drop the NA discounts, keep the strictly
positive ones, convert each with int(...). -/
def cellDiscounts (observations : List Obs) (brand gender category : String) : List ℤ :=
  ((((cellSubset observations brand gender category).filterMap Obs.discount_pct).filter
      fun x => decide (0 < x)).map pyTrunc)

/-- aggregate.py lines 122-150: the three-regime classification, returning
(evidence, sale_pct, cap_pct, why, confidence).  0.6, 0.8, 0.9, 1.1 are
modelled as the exact rationals 6/10, 8/10, 9/10, 11/10. -/
def cellRegime (tier category : String) (urls_checked : ℕ) (discounts : List ℤ) :
    String × ℤ × ℤ × String × String :=
  if 5 ≤ discounts.length then
    let sale_pct := _clamp (pyRound (median discounts)) 0 60
    let cap_pct := max (_clamp (pyRound (percentile75 discounts)) 0 70) sale_pct
    ("OBSERVED", sale_pct, cap_pct, "Observed sale medians", "HIGH")
  else if 10 ≤ urls_checked ∧ discounts.length < 2 then
    let sale_pct := _clamp ((MOSTLY_FULL_PRICE_DEFAULTS.lookup category).getD 6) 0 60
    let cap_pct := _clamp (sale_pct + 5) 0 70
    ("OBSERVED", sale_pct, cap_pct, "Mostly full price", "MED")
  else
    let base_sale := (CATEGORY_DEFAULTS.lookup category).getD 10
    let raw :=
      if tier = "A" then max 4 (pyTrunc (mkRat (base_sale * 6) 10))
      else if tier = "B" then pyTrunc (mkRat (base_sale * 8) 10)
      else if tier = "C" then pyTrunc (mkRat (base_sale * 9) 10)
      else pyTrunc (mkRat (base_sale * 11) 10)
    let sale_pct := _clamp raw 0 60
    let cap_pct := _clamp (max (sale_pct + 8) sale_pct) 0 70
    ("INFERRED", sale_pct, cap_pct, "Inferred conservative", "LOW")

/-- aggregate.py lines 174-176: keep the first 15 whitespace-separated words.
str.split() splits on runs of whitespace and drops empty pieces; the why
strings of this program only ever contain single spaces. -/
def splitWordsAux (cur : List Char) : List Char → List (List Char)
  | [] => if cur = [] then [] else [cur.reverse]
  | c :: cs =>
    if c = ' ' then
      (if cur = [] then splitWordsAux [] cs else cur.reverse :: splitWordsAux [] cs)
    else splitWordsAux (c :: cur) cs

/-- aggregate.py lines 174-176: _trim_why. -/
def _trim_why (reason : String) : String :=
  String.mk (List.intercalate [' '] ((splitWordsAux [] reason.data).take 15))

/-- The body of the loop of aggregate.py lines 111-170: the PolicyRow for one
(brand, gender, category) cell. -/
def cellRow (brand gender category : String) (observations : List Obs) : PolicyRow :=
  let tier := infer_tier brand
  let urls_checked := (cellSubset observations brand gender category).length
  let discounts := cellDiscounts observations brand gender category
  let fields := cellRegime tier category urls_checked discounts
  let evidence := fields.1
  let sale_pct := fields.2.1
  let cap_pct := fields.2.2.1
  let why_text := fields.2.2.2.1
  let confidence := fields.2.2.2.2
  let member_extra := _clamp (member_extra_for_tier tier sale_pct) 0 15
  { brand := brand
    gender := gender
    category := category
    public_sale_discount_pct := sale_pct
    member_extra_pct := member_extra
    public_discount_cap_pct := cap_pct
    discount_visibility := "SALE_ONLY"
    msrp_strikethrough_rule := if evidence = "OBSERVED" then "ONLY_IF_CREDIBLE" else "NEVER"
    coupon_eligibility := if tier = "A" then "WELCOME_ONLY" else "WELCOME+RETARGET"
    evidence_level := evidence
    confidence := confidence
    why := _trim_why why_text }

/-- aggregate.py lines 100-171: aggregate_policy.  The guard of lines 102-110
replaces an empty DataFrame by an empty DataFrame carrying the four required
columns; on the list model both are [] and the guard is the identity. -/
def aggregate_policy (brands : List String) (observations : List Obs) : List PolicyRow :=
  brands.flatMap fun brand => CATEGORIES.map fun gc => cellRow brand gc.1 gc.2 observations

/-- The 12 canonical output columns, in the order of the selection in
aggregate.py lines 182-197. -/
def POLICY_ROW_FIELDS : List String :=
  ["brand", "gender", "category", "public_sale_discount_pct", "member_extra_pct",
   "public_discount_cap_pct", "discount_visibility", "msrp_strikethrough_rule",
   "coupon_eligibility", "evidence_level", "confidence", "why"]

/-- The policy DataFrame: a column list plus the rows. -/
structure PolicyFrame where
  cols : List String
  rows : List PolicyRow
deriving DecidableEq

/-- aggregate.py lines 179-198: build the DataFrame from the row dicts and
select the 12 columns in canonical order.  Each row dict has exactly the 12
dataclass fields, so the selection fixes the column list and keeps every row. -/
def policy_rows_to_dataframe (rows : List PolicyRow) : PolicyFrame :=
  { cols := POLICY_ROW_FIELDS, rows := rows }

/-! ### src/app.py -/

/-- app.py lines 182-190. -/
def DEFAULT_CATEGORY_POLICY : List (String × (ℤ × ℤ)) :=
  [("Clothing", (20, 40)), ("Shoes", (15, 35)), ("Bags", (10, 25)),
   ("Accessories", (15, 35)), ("Jewelry", (5, 15)), ("Watches", (0, 10)),
   ("Beauty", (15, 35))]

/-- The body of the loop of app.py lines 195-216: one all-inferred default
row. -/
def defaultCellRow (brand gender category : String) : PolicyRow :=
  let sc := (DEFAULT_CATEGORY_POLICY.lookup category).getD (10, 25)
  let sale_pct := sc.1
  let cap_pct := sc.2
  let member_extra : ℤ := 5
  let member_extra := if 30 ≤ sale_pct then min member_extra 5 else member_extra
  { brand := brand
    gender := gender
    category := category
    public_sale_discount_pct := sale_pct
    member_extra_pct := member_extra
    public_discount_cap_pct := cap_pct
    discount_visibility := "SALE_ONLY"
    msrp_strikethrough_rule := "NEVER"
    coupon_eligibility := "WELCOME+RETARGET"
    evidence_level := "INFERRED"
    confidence := "LOW"
    why := "No observations; inferred defaults" }

/-- app.py lines 193-217: _build_inferred_defaults. -/
def _build_inferred_defaults (brands : List String) : List PolicyRow :=
  brands.flatMap fun brand => CATEGORIES.map fun gc => defaultCellRow brand gc.1 gc.2

/-- The observations DataFrame as the table builder receives it: presence
flags for the four required columns, and the rows.  A frame loaded from CSV
has rows only together with columns, so DataFrame.empty is rows = []. -/
structure ObsFrame where
  has_brand : Bool
  has_gender : Bool
  has_category : Bool
  has_discount_pct : Bool
  rows : List Obs
deriving DecidableEq

/-- app.py lines 220-227: _normalize_observations.  An empty frame becomes the
empty frame with the four required columns; otherwise each missing required
column is synthesized as all-NA and exactly the four required columns are
kept. -/
def _normalize_observations (observations : ObsFrame) : ObsFrame :=
  if observations.rows = [] then ⟨true, true, true, true, []⟩
  else
    { has_brand := true
      has_gender := true
      has_category := true
      has_discount_pct := true
      rows := observations.rows.map fun o =>
        { brand := if observations.has_brand then o.brand else none
          gender := if observations.has_gender then o.gender else none
          category := if observations.has_category then o.category else none
          discount_pct := if observations.has_discount_pct then o.discount_pct else none } }

/-- app.py line 237 reads the attribute aggregate.POLICY_COLUMNS.  The module
src/research/aggregate.py defines no name POLICY_COLUMNS, so the attribute
lookup raises AttributeError; the lookup is modelled as none. -/
def aggregate_POLICY_COLUMNS : Option (List String) := none

/-- app.py lines 230-236: the rows computed inside build_policy_output before
the final reindex of line 237. -/
def build_policy_rows (brands : List String) (observations : ObsFrame) : List PolicyRow :=
  let normalized := _normalize_observations observations
  if normalized.rows = [] then _build_inferred_defaults brands
  else aggregate_policy brands normalized.rows

/-- app.py lines 230-237: build_policy_output.  The reindex on line 237
consults aggregate.POLICY_COLUMNS, which does not exist, so the call raises
before returning; the raise is modelled as none. -/
def build_policy_output (brands : List String) (observations : ObsFrame) :
    Option PolicyFrame :=
  let df := policy_rows_to_dataframe (build_policy_rows brands observations)
  aggregate_POLICY_COLUMNS.map fun cols => { df with cols := cols }

/-! ### src/research/extract.py -/

/-- extract.py lines 99-103: compute_discount_pct.  The source tests
(not current_price), which is true for None and for 0.0, then
(not was_price or was_price <= 0), true for None and every non-positive
number. -/
def compute_discount_pct (current_price was_price : Option ℚ) : Option ℤ :=
  match current_price, was_price with
  | some c, some w =>
    if c = 0 ∨ w = 0 ∨ w ≤ 0 then none
    else some (max 0 (pyRound ((w - c) / w * 100)))
  | _, _ => none

/-! ### Helper lemmas -/

theorem le_clamp (v lo hi : ℤ) : lo ≤ _clamp v lo hi := le_max_left _ _

theorem clamp_le_right {v lo hi : ℤ} (h : lo ≤ hi) : _clamp v lo hi ≤ hi :=
  max_le h (min_le_right _ _)

theorem clamp_eq_self {v lo hi : ℤ} (h1 : lo ≤ v) (h2 : v ≤ hi) : _clamp v lo hi = v := by
  unfold _clamp
  rw [min_eq_left h2, max_eq_right h1]

theorem mem_aggregate_policy {brands : List String} {observations : List Obs} {row : PolicyRow} :
    row ∈ aggregate_policy brands observations ↔
      ∃ b ∈ brands, ∃ gc ∈ CATEGORIES, row = cellRow b gc.1 gc.2 observations := by
  simp [aggregate_policy, List.mem_flatMap, List.mem_map, eq_comm]

theorem mem_build_inferred_defaults {brands : List String} {row : PolicyRow} :
    row ∈ _build_inferred_defaults brands ↔
      ∃ b ∈ brands, ∃ gc ∈ CATEGORIES, row = defaultCellRow b gc.1 gc.2 := by
  simp [_build_inferred_defaults, List.mem_flatMap, List.mem_map, eq_comm]

theorem cellRow_evidence (b g c : String) (obs : List Obs) :
    (cellRow b g c obs).evidence_level =
      (cellRegime (infer_tier b) c (cellSubset obs b g c).length (cellDiscounts obs b g c)).1 :=
  rfl

theorem cellRow_sale (b g c : String) (obs : List Obs) :
    (cellRow b g c obs).public_sale_discount_pct =
      (cellRegime (infer_tier b) c (cellSubset obs b g c).length (cellDiscounts obs b g c)).2.1 :=
  rfl

theorem cellRow_cap (b g c : String) (obs : List Obs) :
    (cellRow b g c obs).public_discount_cap_pct =
      (cellRegime (infer_tier b) c (cellSubset obs b g c).length (cellDiscounts obs b g c)).2.2.1 :=
  rfl

theorem cellRow_confidence (b g c : String) (obs : List Obs) :
    (cellRow b g c obs).confidence =
      (cellRegime (infer_tier b) c (cellSubset obs b g c).length (cellDiscounts obs b g c)).2.2.2.2 :=
  rfl

theorem cellRow_member (b g c : String) (obs : List Obs) :
    (cellRow b g c obs).member_extra_pct =
      _clamp (member_extra_for_tier (infer_tier b)
        (cellRegime (infer_tier b) c (cellSubset obs b g c).length (cellDiscounts obs b g c)).2.1) 0 15 :=
  rfl

theorem cellRow_coupon (b g c : String) (obs : List Obs) :
    (cellRow b g c obs).coupon_eligibility =
      if infer_tier b = "A" then "WELCOME_ONLY" else "WELCOME+RETARGET" :=
  rfl

theorem cellRegime_observed {tier category : String} {u : ℕ} {d : List ℤ}
    (h : 5 ≤ d.length) :
    cellRegime tier category u d =
      ("OBSERVED", _clamp (pyRound (median d)) 0 60,
        max (_clamp (pyRound (percentile75 d)) 0 70) (_clamp (pyRound (median d)) 0 60),
        "Observed sale medians", "HIGH") := by
  unfold cellRegime
  rw [if_pos h]

theorem cellRegime_fullprice {tier category : String} {u : ℕ} {d : List ℤ}
    (h10 : 10 ≤ u) (h2 : d.length < 2) :
    cellRegime tier category u d =
      ("OBSERVED", _clamp ((MOSTLY_FULL_PRICE_DEFAULTS.lookup category).getD 6) 0 60,
        _clamp (_clamp ((MOSTLY_FULL_PRICE_DEFAULTS.lookup category).getD 6) 0 60 + 5) 0 70,
        "Mostly full price", "MED") := by
  unfold cellRegime
  rw [if_neg (by omega), if_pos ⟨h10, h2⟩]

theorem cellRegime_inferred {tier category : String} {u : ℕ} {d : List ℤ}
    (hn5 : ¬ 5 ≤ d.length) (hn : ¬ (10 ≤ u ∧ d.length < 2)) :
    cellRegime tier category u d =
      ("INFERRED",
        _clamp (if tier = "A" then max 4 (pyTrunc (mkRat ((CATEGORY_DEFAULTS.lookup category).getD 10 * 6) 10))
          else if tier = "B" then pyTrunc (mkRat ((CATEGORY_DEFAULTS.lookup category).getD 10 * 8) 10)
          else if tier = "C" then pyTrunc (mkRat ((CATEGORY_DEFAULTS.lookup category).getD 10 * 9) 10)
          else pyTrunc (mkRat ((CATEGORY_DEFAULTS.lookup category).getD 10 * 11) 10)) 0 60,
        _clamp (max (_clamp (if tier = "A" then max 4 (pyTrunc (mkRat ((CATEGORY_DEFAULTS.lookup category).getD 10 * 6) 10))
          else if tier = "B" then pyTrunc (mkRat ((CATEGORY_DEFAULTS.lookup category).getD 10 * 8) 10)
          else if tier = "C" then pyTrunc (mkRat ((CATEGORY_DEFAULTS.lookup category).getD 10 * 9) 10)
          else pyTrunc (mkRat ((CATEGORY_DEFAULTS.lookup category).getD 10 * 11) 10)) 0 60 + 8)
          (_clamp (if tier = "A" then max 4 (pyTrunc (mkRat ((CATEGORY_DEFAULTS.lookup category).getD 10 * 6) 10))
          else if tier = "B" then pyTrunc (mkRat ((CATEGORY_DEFAULTS.lookup category).getD 10 * 8) 10)
          else if tier = "C" then pyTrunc (mkRat ((CATEGORY_DEFAULTS.lookup category).getD 10 * 9) 10)
          else pyTrunc (mkRat ((CATEGORY_DEFAULTS.lookup category).getD 10 * 11) 10)) 0 60)) 0 70,
        "Inferred conservative", "LOW") := by
  unfold cellRegime
  rw [if_neg hn5, if_neg hn]

theorem sale_cap_plus_bounds (x off : ℤ) (hoff0 : 0 ≤ off) (hoff10 : off ≤ 10) :
    0 ≤ _clamp x 0 60 ∧ _clamp x 0 60 ≤ 60 ∧
    0 ≤ _clamp (_clamp x 0 60 + off) 0 70 ∧ _clamp (_clamp x 0 60 + off) 0 70 ≤ 70 ∧
    _clamp x 0 60 ≤ _clamp (_clamp x 0 60 + off) 0 70 := by
  have h0 : 0 ≤ _clamp x 0 60 := le_clamp _ _ _
  have h60 : _clamp x 0 60 ≤ 60 := clamp_le_right (by norm_num)
  refine ⟨h0, h60, le_clamp _ _ _, clamp_le_right (by norm_num), ?_⟩
  set s : ℤ := _clamp x 0 60 with hs
  rw [clamp_eq_self (by omega) (by omega)]
  omega

theorem cellRegime_bounds (tier category : String) (u : ℕ) (d : List ℤ) :
    0 ≤ (cellRegime tier category u d).2.1 ∧ (cellRegime tier category u d).2.1 ≤ 60 ∧
    0 ≤ (cellRegime tier category u d).2.2.1 ∧ (cellRegime tier category u d).2.2.1 ≤ 70 ∧
    (cellRegime tier category u d).2.1 ≤ (cellRegime tier category u d).2.2.1 := by
  by_cases h1 : 5 ≤ d.length
  · rw [cellRegime_observed h1]
    dsimp only
    refine ⟨le_clamp _ _ _, clamp_le_right (by norm_num), ?_, ?_, le_max_right _ _⟩
    · exact le_trans (le_clamp _ _ _) (le_max_left _ _)
    · exact max_le (clamp_le_right (by norm_num))
        (le_trans (clamp_le_right (by norm_num)) (by norm_num))
  · by_cases h2 : 10 ≤ u ∧ d.length < 2
    · rw [cellRegime_fullprice h2.1 h2.2]
      dsimp only
      exact sale_cap_plus_bounds _ 5 (by norm_num) (by norm_num)
    · rw [cellRegime_inferred h1 h2]
      dsimp only
      have hmax : ∀ s : ℤ, max (s + 8) s = s + 8 := fun s => max_eq_left (by omega)
      rw [hmax]
      exact sale_cap_plus_bounds _ 8 (by norm_num) (by norm_num)

theorem cellRow_bounds (b g c : String) (obs : List Obs) :
    (cellRow b g c obs).public_sale_discount_pct ≤ (cellRow b g c obs).public_discount_cap_pct ∧
    0 ≤ (cellRow b g c obs).public_sale_discount_pct ∧
    (cellRow b g c obs).public_sale_discount_pct ≤ 60 ∧
    0 ≤ (cellRow b g c obs).public_discount_cap_pct ∧
    (cellRow b g c obs).public_discount_cap_pct ≤ 70 ∧
    0 ≤ (cellRow b g c obs).member_extra_pct ∧ (cellRow b g c obs).member_extra_pct ≤ 15 := by
  have h := cellRegime_bounds (infer_tier b) c (cellSubset obs b g c).length (cellDiscounts obs b g c)
  rw [cellRow_sale, cellRow_cap, cellRow_member]
  exact ⟨h.2.2.2.2, h.1, h.2.1, h.2.2.1, h.2.2.2.1, le_clamp _ _ _, clamp_le_right (by norm_num)⟩

theorem lookup_getD_sat {β : Type} (P : β → Prop) (dflt : β) (hd : P dflt) :
    ∀ l : List (String × β), (∀ p ∈ l, P p.2) → ∀ a : String, P ((l.lookup a).getD dflt)
  | [], _, a => by simpa [List.lookup] using hd
  | p :: t, hl, a => by
    rcases hb : (a == p.1) with _ | _
    · simp only [List.lookup, hb]
      exact lookup_getD_sat P dflt hd t (fun q hq => hl q (List.mem_cons_of_mem _ hq)) a
    · simp only [List.lookup, hb, Option.getD_some]
      exact hl p (List.mem_cons_self _ _)

theorem defaultCellRow_bounds (b g c : String) :
    (defaultCellRow b g c).public_sale_discount_pct ≤ (defaultCellRow b g c).public_discount_cap_pct ∧
    0 ≤ (defaultCellRow b g c).public_sale_discount_pct ∧
    (defaultCellRow b g c).public_sale_discount_pct ≤ 60 ∧
    0 ≤ (defaultCellRow b g c).public_discount_cap_pct ∧
    (defaultCellRow b g c).public_discount_cap_pct ≤ 70 ∧
    0 ≤ (defaultCellRow b g c).member_extra_pct ∧ (defaultCellRow b g c).member_extra_pct ≤ 15 := by
  have h := lookup_getD_sat
    (fun sc : ℤ × ℤ => 0 ≤ sc.1 ∧ sc.1 ≤ 60 ∧ 0 ≤ sc.2 ∧ sc.2 ≤ 70 ∧ sc.1 ≤ sc.2)
    (10, 25) (by norm_num) DEFAULT_CATEGORY_POLICY (by decide) c
  unfold defaultCellRow
  dsimp only
  split_ifs with hs <;>
    exact ⟨h.2.2.2.2, h.1, h.2.1, h.2.2.1, h.2.2.2.1, by norm_num, by norm_num⟩

/-! ### Claim theorems -/

/-- C1.  The claim states that for every non-empty brand list and every
observation table build_policy_output returns normally with len(brands) * 13
rows and the 12 canonical columns.  In fact build_policy_output never returns:
its final statement, df.reindex(columns=aggregate.POLICY_COLUMNS) at
app.py line 237, reads the attribute POLICY_COLUMNS of the module
src/research/aggregate.py, which defines no such name, so every call raises
AttributeError.  This contradicts the repository's own test
(tests/test_policy_output.py) and selfcheck.py, which call the function and
expect a table, so the code, not the claim, is wrong.  The theorem shows that
the modelled function yields none (the raise) on every input. -/
theorem build_policy_output_always_raises (brands : List String) (observations : ObsFrame) :
    build_policy_output brands observations = none := rfl

/-- C2.  For every brand list and observation table, aggregate_policy returns
exactly one PolicyRow per (brand, cell) pair, in brand-major, cell-minor order
following the fixed 13-entry cell enumeration, hence len(brands) * 13 rows in
total; being a total function, it has no failure mode. -/
theorem aggregate_policy_row_count_and_order (brands : List String) (observations : List Obs) :
    (aggregate_policy brands observations).map (fun r => (r.brand, r.gender, r.category)) =
      brands.flatMap (fun b => CATEGORIES.map fun gc => (b, gc.1, gc.2)) ∧
    (aggregate_policy brands observations).length = brands.length * 13 := by
  constructor
  · simp only [aggregate_policy, List.map_flatMap, List.map_map]
    rfl
  · simp only [aggregate_policy, List.length_flatMap, List.map_map, Function.comp_def,
      List.length_map]
    show (brands.map fun _ => (13:ℕ)).sum = brands.length * 13
    simp [List.map_const', List.sum_replicate, Nat.smul_one_eq_cast]

/-- C3.  Every row produced by aggregate_policy or by the all-inferred
defaults path of build_policy_output has cap ≥ sale, sale within [0,60],
cap within [0,70] and member_extra within [0,15]. -/
theorem policy_row_bounds (brands : List String) (observations : List Obs) (row : PolicyRow)
    (h : row ∈ aggregate_policy brands observations ∨ row ∈ _build_inferred_defaults brands) :
    row.public_sale_discount_pct ≤ row.public_discount_cap_pct ∧
    0 ≤ row.public_sale_discount_pct ∧ row.public_sale_discount_pct ≤ 60 ∧
    0 ≤ row.public_discount_cap_pct ∧ row.public_discount_cap_pct ≤ 70 ∧
    0 ≤ row.member_extra_pct ∧ row.member_extra_pct ≤ 15 := by
  rcases h with h | h
  · obtain ⟨b, _, gc, _, rfl⟩ := mem_aggregate_policy.mp h
    exact cellRow_bounds b gc.1 gc.2 observations
  · obtain ⟨b, _, gc, _, rfl⟩ := mem_build_inferred_defaults.mp h
    exact defaultCellRow_bounds b gc.1 gc.2

/-- C3 witness: the bounds theorem applied to the first row computed for a
concrete brand with no observations. -/
theorem policy_row_bounds_witness :
    ((aggregate_policy ["BrandA"] []).head (by decide)).public_sale_discount_pct ≤
      ((aggregate_policy ["BrandA"] []).head (by decide)).public_discount_cap_pct ∧
    ((aggregate_policy ["BrandA"] []).head (by decide)).member_extra_pct ≤ 15 := by
  have h := policy_row_bounds ["BrandA"] [] _ (Or.inl (List.head_mem (by decide)))
  exact ⟨h.1, h.2.2.2.2.2.2⟩

theorem build_policy_rows_def (brands : List String) (f : ObsFrame) :
    build_policy_rows brands f =
      if (_normalize_observations f).rows = [] then _build_inferred_defaults brands
      else aggregate_policy brands (_normalize_observations f).rows := rfl

theorem normalize_rows_nil_iff (f : ObsFrame) :
    (_normalize_observations f).rows = [] ↔ f.rows = [] := by
  unfold _normalize_observations
  by_cases h : f.rows = []
  · rw [if_pos h]
    simp [h]
  · rw [if_neg h]
    simp [h]

/-- C4 counterexample.  The claim says a table missing a required column is
always routed through the all-inferred defaults path, so every output row
would carry why "No observations; inferred defaults" and coupon_eligibility
"WELCOME+RETARGET".  But a non-empty table missing only discount_pct is not
empty after normalization, so build_policy_output hands it to the Aggregator:
for the brand "Rolex" the first row comes out with why "Inferred conservative"
and coupon_eligibility "WELCOME_ONLY", contradicting the claim.  Moreover the
claim speaks of build_policy_output's output rows, and build_policy_output
never returns at all (see C1): on the same input it raises, modelled as
none. -/
theorem missing_column_table_uses_aggregator_cex :
    ((build_policy_rows ["Rolex"]
        ⟨true, true, true, false, [⟨some "Rolex", some "Men", some "Clothing", none⟩]⟩).map
      PolicyRow.why).head? = some "Inferred conservative" ∧
    ((build_policy_rows ["Rolex"]
        ⟨true, true, true, false, [⟨some "Rolex", some "Men", some "Clothing", none⟩]⟩).map
      PolicyRow.coupon_eligibility).head? = some "WELCOME_ONLY" ∧
    build_policy_output ["Rolex"]
        ⟨true, true, true, false, [⟨some "Rolex", some "Men", some "Clothing", none⟩]⟩ = none :=
  ⟨by decide, by decide, rfl⟩

/-- C4 as amended.  _normalize_observations synthesizes missing required
columns as all-null, but only a table that is empty after normalization (that
is, a table with no rows) takes the all-inferred defaults path; a non-empty
table missing required columns is passed, with the synthesized null columns,
to the Policy Aggregator.  When the table has no rows, every row of the
assembled output (the rows built before the reindex of app.py line 237, which
itself raises, see C1) has evidence_level INFERRED, confidence LOW,
coupon_eligibility WELCOME+RETARGET and why "No observations; inferred
defaults". -/
theorem build_policy_rows_paths (brands : List String) (f : ObsFrame) :
    (f.rows ≠ [] →
      build_policy_rows brands f = aggregate_policy brands (_normalize_observations f).rows) ∧
    (f.rows = [] → ∀ row ∈ build_policy_rows brands f,
      row.evidence_level = "INFERRED" ∧ row.confidence = "LOW" ∧
      row.coupon_eligibility = "WELCOME+RETARGET" ∧
      row.why = "No observations; inferred defaults") := by
  constructor
  · intro h
    rw [build_policy_rows_def, if_neg (fun hnil => h ((normalize_rows_nil_iff f).mp hnil))]
  · intro h row hrow
    rw [build_policy_rows_def, if_pos ((normalize_rows_nil_iff f).mpr h)] at hrow
    obtain ⟨b, _, gc, _, rfl⟩ := mem_build_inferred_defaults.mp hrow
    exact ⟨rfl, rfl, rfl, rfl⟩

/-- C4 witness: both amended branches at concrete inputs, via the theorem. -/
theorem build_policy_rows_paths_witness :
    build_policy_rows ["Coach"]
        ⟨true, true, true, false, [⟨some "Coach", some "Men", some "Bags", none⟩]⟩ =
      aggregate_policy ["Coach"]
        (_normalize_observations
          ⟨true, true, true, false, [⟨some "Coach", some "Men", some "Bags", none⟩]⟩).rows ∧
    ((build_policy_rows ["Coach"] ⟨true, true, true, true, []⟩).head
        (by decide)).evidence_level = "INFERRED" := by
  constructor
  · exact (build_policy_rows_paths ["Coach"] _).1 (by decide)
  · exact ((build_policy_rows_paths ["Coach"] _).2 rfl _ (List.head_mem (by decide))).1

/-- C5.  Any aggregate_policy row whose cell has at least 5 strictly-positive
discounts is an OBSERVED/HIGH row with sale_pct = clamp(round(median), 0, 60)
and cap_pct = max(clamp(round(75th percentile), 0, 70), sale_pct), so
cap_pct ≥ sale_pct. -/
theorem aggregate_policy_observed_signal (brands : List String) (observations : List Obs)
    (row : PolicyRow) (hrow : row ∈ aggregate_policy brands observations)
    (h5 : 5 ≤ (cellDiscounts observations row.brand row.gender row.category).length) :
    row.evidence_level = "OBSERVED" ∧ row.confidence = "HIGH" ∧
    row.public_sale_discount_pct =
      _clamp (pyRound (median (cellDiscounts observations row.brand row.gender row.category)))
        0 60 ∧
    row.public_discount_cap_pct =
      max (_clamp (pyRound
          (percentile75 (cellDiscounts observations row.brand row.gender row.category))) 0 70)
        row.public_sale_discount_pct ∧
    row.public_sale_discount_pct ≤ row.public_discount_cap_pct := by
  obtain ⟨b, _, gc, _, rfl⟩ := mem_aggregate_policy.mp hrow
  have hbrand : (cellRow b gc.1 gc.2 observations).brand = b := rfl
  have hgender : (cellRow b gc.1 gc.2 observations).gender = gc.1 := rfl
  have hcat : (cellRow b gc.1 gc.2 observations).category = gc.2 := rfl
  simp only [hbrand, hgender, hcat] at h5 ⊢
  rw [cellRow_evidence, cellRow_confidence, cellRow_sale, cellRow_cap,
    cellRegime_observed h5]
  exact ⟨rfl, rfl, rfl, rfl, le_max_right _ _⟩

def obsSignal : List Obs :=
  [⟨some "BrandZ", some "Men", some "Clothing", some 10⟩,
   ⟨some "BrandZ", some "Men", some "Clothing", some 20⟩,
   ⟨some "BrandZ", some "Men", some "Clothing", some 20⟩,
   ⟨some "BrandZ", some "Men", some "Clothing", some 30⟩,
   ⟨some "BrandZ", some "Men", some "Clothing", some 40⟩]

/-- C5 witness: the observed-signal theorem at the discounts 10,20,20,30,40,
whose median row yields sale_pct 20 and cap_pct at least sale_pct. -/
theorem aggregate_policy_observed_signal_witness :
    5 ≤ (cellDiscounts obsSignal "BrandZ" "Men" "Clothing").length ∧
    ((aggregate_policy ["BrandZ"] obsSignal).head (by decide)).evidence_level = "OBSERVED" ∧
    ((aggregate_policy ["BrandZ"] obsSignal).head (by decide)).confidence = "HIGH" ∧
    ((aggregate_policy ["BrandZ"] obsSignal).head (by decide)).public_sale_discount_pct = 20 ∧
    ((aggregate_policy ["BrandZ"] obsSignal).head (by decide)).public_sale_discount_pct ≤
      ((aggregate_policy ["BrandZ"] obsSignal).head (by decide)).public_discount_cap_pct := by
  have h := aggregate_policy_observed_signal ["BrandZ"] obsSignal _
    (List.head_mem (by decide)) (by decide)
  exact ⟨by decide, h.1, h.2.1, by rw [h.2.2.1]; decide, h.2.2.2.2⟩

/-- C6.  Any aggregate_policy row whose cell has at least 10 matching
observations but fewer than 2 strictly-positive discounts is an OBSERVED/MED
row whose sale_pct is the category's mostly-full-price default clamped to
[0,60], with cap_pct = clamp(sale_pct + 5, 0, 70). -/
theorem aggregate_policy_mostly_full_price (brands : List String) (observations : List Obs)
    (row : PolicyRow) (hrow : row ∈ aggregate_policy brands observations)
    (h10 : 10 ≤ (cellSubset observations row.brand row.gender row.category).length)
    (h2 : (cellDiscounts observations row.brand row.gender row.category).length < 2) :
    row.evidence_level = "OBSERVED" ∧ row.confidence = "MED" ∧
    row.public_sale_discount_pct =
      _clamp ((MOSTLY_FULL_PRICE_DEFAULTS.lookup row.category).getD 6) 0 60 ∧
    row.public_discount_cap_pct = _clamp (row.public_sale_discount_pct + 5) 0 70 := by
  obtain ⟨b, _, gc, _, rfl⟩ := mem_aggregate_policy.mp hrow
  have hbrand : (cellRow b gc.1 gc.2 observations).brand = b := rfl
  have hgender : (cellRow b gc.1 gc.2 observations).gender = gc.1 := rfl
  have hcat : (cellRow b gc.1 gc.2 observations).category = gc.2 := rfl
  simp only [hbrand, hgender, hcat] at h10 h2 ⊢
  rw [cellRow_evidence, cellRow_confidence, cellRow_sale, cellRow_cap,
    cellRegime_fullprice h10 h2]
  exact ⟨rfl, rfl, rfl, rfl⟩

def obsFullPrice : List Obs :=
  List.replicate 10 ⟨some "BrandY", some "Men", some "Clothing", some 0⟩

/-- C6 witness: the mostly-full-price theorem at 10 observations with no
positive discount; Clothing's mostly-full-price default is 8. -/
theorem aggregate_policy_mostly_full_price_witness :
    10 ≤ (cellSubset obsFullPrice "BrandY" "Men" "Clothing").length ∧
    (cellDiscounts obsFullPrice "BrandY" "Men" "Clothing").length < 2 ∧
    ((aggregate_policy ["BrandY"] obsFullPrice).head (by decide)).evidence_level = "OBSERVED" ∧
    ((aggregate_policy ["BrandY"] obsFullPrice).head (by decide)).confidence = "MED" ∧
    ((aggregate_policy ["BrandY"] obsFullPrice).head (by decide)).public_sale_discount_pct = 8 := by
  have h := aggregate_policy_mostly_full_price ["BrandY"] obsFullPrice _
    (List.head_mem (by decide)) (by decide) (by decide)
  exact ⟨by decide, by decide, h.1, h.2.1, by rw [h.2.2.1]; decide⟩

/-- C7.  Any aggregate_policy row in neither observed regime is an
INFERRED/LOW row whose sale_pct is the category base default (10 when the
category is absent) scaled by tier with truncation, clamped to [0,60], and
whose cap_pct is clamp(sale_pct + 8, 0, 70). -/
theorem aggregate_policy_inferred_regime (brands : List String) (observations : List Obs)
    (row : PolicyRow) (hrow : row ∈ aggregate_policy brands observations)
    (hn5 : ¬ 5 ≤ (cellDiscounts observations row.brand row.gender row.category).length)
    (hn : ¬ (10 ≤ (cellSubset observations row.brand row.gender row.category).length ∧
      (cellDiscounts observations row.brand row.gender row.category).length < 2)) :
    row.evidence_level = "INFERRED" ∧ row.confidence = "LOW" ∧
    row.public_sale_discount_pct =
      _clamp (if infer_tier row.brand = "A"
          then max 4 (pyTrunc (mkRat ((CATEGORY_DEFAULTS.lookup row.category).getD 10 * 6) 10))
        else if infer_tier row.brand = "B"
          then pyTrunc (mkRat ((CATEGORY_DEFAULTS.lookup row.category).getD 10 * 8) 10)
        else if infer_tier row.brand = "C"
          then pyTrunc (mkRat ((CATEGORY_DEFAULTS.lookup row.category).getD 10 * 9) 10)
        else pyTrunc (mkRat ((CATEGORY_DEFAULTS.lookup row.category).getD 10 * 11) 10)) 0 60 ∧
    row.public_discount_cap_pct = _clamp (row.public_sale_discount_pct + 8) 0 70 := by
  obtain ⟨b, _, gc, _, rfl⟩ := mem_aggregate_policy.mp hrow
  have hbrand : (cellRow b gc.1 gc.2 observations).brand = b := rfl
  have hgender : (cellRow b gc.1 gc.2 observations).gender = gc.1 := rfl
  have hcat : (cellRow b gc.1 gc.2 observations).category = gc.2 := rfl
  simp only [hbrand, hgender, hcat] at hn5 hn ⊢
  rw [cellRow_evidence, cellRow_confidence, cellRow_sale, cellRow_cap,
    cellRegime_inferred hn5 hn]
  have hmax : ∀ s : ℤ, max (s + 8) s = s + 8 := fun s => max_eq_left (by omega)
  refine ⟨rfl, rfl, rfl, ?_⟩
  dsimp only
  rw [hmax]

/-- C7 witness: the inferred-regime theorem at a brand with zero
observations; an unmatched brand is tier A, the Clothing base 20 scales to
max(4, int(20 * 0.6)) = 12, so sale_pct 12 and cap_pct 20. -/
theorem aggregate_policy_inferred_regime_witness :
    ((aggregate_policy ["BrandW"] []).head (by decide)).evidence_level = "INFERRED" ∧
    ((aggregate_policy ["BrandW"] []).head (by decide)).confidence = "LOW" ∧
    ((aggregate_policy ["BrandW"] []).head (by decide)).public_sale_discount_pct = 12 ∧
    ((aggregate_policy ["BrandW"] []).head (by decide)).public_discount_cap_pct = 20 := by
  have h := aggregate_policy_inferred_regime ["BrandW"] [] _
    (List.head_mem (by decide)) (by decide) (by decide)
  exact ⟨h.1, h.2.1, by rw [h.2.2.1]; decide, by rw [h.2.2.2, h.2.2.1]; decide⟩

/-- The spec-level matching relation of the Tier Classifier: some curated
name of the set occurs as a substring of the lower-cased brand. -/
def tierMatch (sets : List String) (brand : String) : Prop :=
  ∃ name ∈ sets, name.data <:+: brand.data.map Char.toLower

instance (sets : List String) (brand : String) : Decidable (tierMatch sets brand) := by
  unfold tierMatch
  infer_instance

theorem isSubstrOf_iff (needle : String) (haystack : List Char) :
    isSubstrOf needle haystack = true ↔ needle.data <:+: haystack := by
  simp only [isSubstrOf, List.any_eq_true]
  constructor
  · rintro ⟨t, ht, hp⟩
    rw [List.mem_tails] at ht
    rw [ List.isPrefixOf_iff_prefix] at hp
    exact List.infix_iff_prefix_suffix.mpr ⟨t, hp, ht⟩
  · intro h
    obtain ⟨t, hp, hs⟩ := List.infix_iff_prefix_suffix.mp h
    exact ⟨t, (List.mem_tails _ _).mpr hs, List.isPrefixOf_iff_prefix.mpr hp⟩

/-- C8.  infer_tier lower-cases the brand, tests substring containment
against the four curated name sets in the fixed priority order A, D, B, C,
returns the tier of the first matching set and A when none match; in
particular "Rolex Boutique" is tier A, "Coach Outlet" is tier D and the
unmatched "Unknown Local Brand" defaults to tier A. -/
theorem infer_tier_priority_and_default :
    (∀ brand : String, infer_tier brand =
      if tierMatch TIER_A brand then "A"
      else if tierMatch TIER_D brand then "D"
      else if tierMatch TIER_B brand then "B"
      else if tierMatch TIER_C brand then "C"
      else "A") ∧
    infer_tier "Rolex Boutique" = "A" ∧
    infer_tier "Coach Outlet" = "D" ∧
    infer_tier "Unknown Local Brand" = "A" := by
  refine ⟨?_, by decide, by decide, by decide⟩
  intro brand
  have key : ∀ sets : List String,
      (sets.any fun name => isSubstrOf name (brand.data.map Char.toLower)) = true ↔
        tierMatch sets brand := by
    intro sets
    simp only [List.any_eq_true, isSubstrOf_iff, tierMatch]
  unfold infer_tier
  by_cases hA : tierMatch TIER_A brand <;> by_cases hD : tierMatch TIER_D brand <;>
    by_cases hB : tierMatch TIER_B brand <;> by_cases hC : tierMatch TIER_C brand <;>
      simp [key, hA, hB, hC, hD]

/-- C9 counterexample.  The claim says the all-inferred defaults path and the
Aggregator's zero-observation path never agree on coupon_eligibility for
tier-D brands.  For the tier-D brand "Coach" both paths produce
"WELCOME+RETARGET", so they agree; the actual divergence is for tier-A
brands. -/
theorem tier_d_coupon_agreement_cex :
    infer_tier "Coach" = "D" ∧
    ((aggregate_policy ["Coach"] []).map PolicyRow.coupon_eligibility).head? =
      ((_build_inferred_defaults ["Coach"]).map PolicyRow.coupon_eligibility).head? :=
  ⟨by decide, by decide⟩

/-- C9 as amended.  With a fully empty observation table, a row of the
Aggregator and a row of the all-inferred defaults path agree on
coupon_eligibility whenever the Aggregator row's brand is tier D, and differ
whenever it is tier A (the defaults path always emits "WELCOME+RETARGET",
the Aggregator emits "WELCOME_ONLY" exactly for tier A). -/
theorem coupon_divergence_by_tier (brands : List String) (r rd : PolicyRow)
    (hr : r ∈ aggregate_policy brands []) (hrd : rd ∈ _build_inferred_defaults brands) :
    (infer_tier r.brand = "D" → r.coupon_eligibility = rd.coupon_eligibility) ∧
    (infer_tier r.brand = "A" → r.coupon_eligibility ≠ rd.coupon_eligibility) := by
  obtain ⟨b, _, gc, _, rfl⟩ := mem_aggregate_policy.mp hr
  obtain ⟨b2, _, gc2, _, rfl⟩ := mem_build_inferred_defaults.mp hrd
  have hb : (cellRow b gc.1 gc.2 []).brand = b := rfl
  have hdc : (defaultCellRow b2 gc2.1 gc2.2).coupon_eligibility = "WELCOME+RETARGET" := rfl
  rw [hb, cellRow_coupon, hdc]
  constructor
  · intro hD
    rw [hD]
    decide
  · intro hA
    rw [hA]
    decide

/-- C9 witness: the agreement branch of the amended theorem at the tier-D
brand "Coach". -/
theorem coupon_divergence_by_tier_witness :
    ((aggregate_policy ["Coach"] []).head (by decide)).coupon_eligibility =
      ((_build_inferred_defaults ["Coach"]).head (by decide)).coupon_eligibility :=
  (coupon_divergence_by_tier ["Coach"] _ _ (List.head_mem (by decide))
    (List.head_mem (by decide))).1 (by decide)

unseal Rat.sub Rat.mul Rat.inv in
/-- C10 counterexample.  The claim says compute_discount_pct returns None
whenever either price is non-positive.  Python tests (not current_price),
which is true only for None and 0, so a strictly negative current price slips
through: current_price = -1 (negative, hence non-positive) with
was_price = 100 yields round of 101 percent, that is some 101, not None. -/
theorem compute_discount_pct_negative_current_cex :
    compute_discount_pct (some (-1)) (some 100) = some 101 ∧ (-1 : ℚ) < 0 :=
  ⟨by decide, by decide⟩

/-- C10 as amended.  compute_discount_pct returns None exactly when
current_price is missing or equal to 0, or was_price is missing or
non-positive; otherwise it returns round((was - current)/was · 100) floored
at 0, so the result is never negative. -/
theorem compute_discount_pct_spec (current_price was_price : Option ℚ) :
    (compute_discount_pct current_price was_price = none ↔
      current_price = none ∨ current_price = some 0 ∨ was_price = none ∨
        ∃ wv, was_price = some wv ∧ wv ≤ 0) ∧
    (∀ cv wv, current_price = some cv → was_price = some wv → cv ≠ 0 → 0 < wv →
      compute_discount_pct current_price was_price =
        some (max 0 (pyRound ((wv - cv) / wv * 100)))) ∧
    (∀ d, compute_discount_pct current_price was_price = some d → 0 ≤ d) := by
  refine ⟨?_, ?_, ?_⟩
  · match current_price, was_price with
    | none, _ => simp [compute_discount_pct]
    | some c, none => simp [compute_discount_pct]
    | some c, some w =>
      simp only [compute_discount_pct]
      split_ifs with h
      · simp only [true_iff]
        rcases h with h | h | h
        · exact Or.inr (Or.inl (by rw [h]))
        · exact Or.inr (Or.inr (Or.inr ⟨w, rfl, le_of_eq h⟩))
        · exact Or.inr (Or.inr (Or.inr ⟨w, rfl, h⟩))
      · simp only [Option.some_ne_none, false_iff]
        rintro (h1 | h1 | h1 | ⟨wv, hw, hwv⟩)
        · exact h1.elim
        · exact h (Or.inl (by injection h1))
        · exact h1.elim
        · have hwv2 : w = wv := by injection hw
          exact h (Or.inr (Or.inr (hwv2 ▸ hwv)))
  · intro cv wv hc hw hcv hwv
    subst hc
    subst hw
    simp only [compute_discount_pct]
    rw [if_neg]
    rintro (h1 | h1 | h1)
    · exact hcv h1
    · rw [h1] at hwv
      exact lt_irrefl 0 hwv
    · exact absurd hwv (not_lt.mpr h1)
  · intro d hd
    match current_price, was_price with
    | none, _ => exact Option.noConfusion hd
    | some c, none => exact Option.noConfusion hd
    | some c, some w =>
      simp only [compute_discount_pct] at hd
      split_ifs at hd
      have hd2 : max 0 (pyRound ((w - c) / w * 100)) = d := by injection hd
      rw [← hd2]
      exact le_max_left _ _

unseal Rat.sub Rat.mul Rat.inv in
/-- C10 witness: the positive branch of the amended theorem at
current_price = 50, was_price = 100, giving a 50 percent discount. -/
theorem compute_discount_pct_spec_witness :
    compute_discount_pct (some 50) (some 100) = some 50 := by
  have h := (compute_discount_pct_spec (some 50) (some 100)).2.1 50 100 rfl rfl
    (by norm_num) (by norm_num)
  rw [h]
  decide

end Pricing
